import Mathlib

/-!
Verification of the jest-matcher-utils module
(src/packages/jest-matcher-utils/src/index.js).

The module is embedded shallowly: JavaScript runtime values are modelled by
the inductive type `JSValue`, thrown exceptions by `Except String`, and the
two external collaborators (the pretty-format structural printer and the
chalk colorizer, which are outside src/) are modelled from the spec with
doc comments saying so.
-/

/-- Identity of the `constructor` property of a JavaScript object, as far
as `getType` consults it: the regular-expression constructor, the plain
Object constructor, or any other constructor function (tagged by a number). -/
inductive Ctor where
  | regExpCtor
  | objectCtor
  | otherCtor (id : Nat)
deriving DecidableEq, Repr

/-- Shallow model of a JavaScript runtime value, covering the kinds
distinguished by the module. A generic object carries the identity of its
`constructor` property (`none` models a null-prototype object where the
lookup yields undefined), whether its custom serialization hook (toJSON)
throws when called, and whether it is a genuine regular-expression instance
(the last flag is never consulted by `getType`, which looks only at the
constructor identity). -/
inductive JSValue where
  | undef
  | null
  | boolean (b : Bool)
  | number (n : Int)
  | string (s : String)
  | function (id : Nat)
  | symbol (id : Nat)
  | array (elems : List JSValue)
  | object (ctor : Option Ctor) (toJSONThrows : Bool) (genuineRegExp : Bool)

/-- The closed ValueType set of the module (index.js lines 16-26). -/
inductive ValueType where
  | array
  | boolean
  | function
  | null
  | number
  | object
  | regexp
  | string
  | symbol
  | undefined
deriving DecidableEq, Repr

/-- The string each ValueType tag denotes in the source (which uses string
literals for the tags). -/
def ValueType.toStr : ValueType → String
  | ValueType.array => "array"
  | ValueType.boolean => "boolean"
  | ValueType.function => "function"
  | ValueType.null => "null"
  | ValueType.number => "number"
  | ValueType.object => "object"
  | ValueType.regexp => "regexp"
  | ValueType.string => "string"
  | ValueType.symbol => "symbol"
  | ValueType.undefined => "undefined"

/-- JavaScript `typeof` on the modelled values. Note the JavaScript quirks
the source works around: `typeof null` and `typeof []` are both "object". -/
def typeof : JSValue → String
  | JSValue.undef => "undefined"
  | JSValue.null => "object"
  | JSValue.boolean _ => "boolean"
  | JSValue.number _ => "number"
  | JSValue.string _ => "string"
  | JSValue.function _ => "function"
  | JSValue.symbol _ => "symbol"
  | JSValue.array _ => "object"
  | JSValue.object _ _ _ => "object"

/-- JavaScript `Array.isArray`. -/
def isArray : JSValue → Bool
  | JSValue.array _ => true
  | _ => false

/-- JavaScript `value === null`. -/
def isNull : JSValue → Bool
  | JSValue.null => true
  | _ => false

/-- The `value.constructor` property for the values on which `getType`
consults it (the generic-object branch, reached only for non-null,
non-array object-kind values). -/
def constructorOf : JSValue → Option Ctor
  | JSValue.object ctor _ _ => ctor
  | _ => none

/-- Modelled from the spec: rendering of a value by the external
pretty-format collaborator (packages/pretty-format, not under src/) in the
compact `min: true` mode, truncating below the given depth. Only the
renderings of `null` and numbers are pinned by the spec's examples. -/
def renderWithDepth : Nat → JSValue → String
  | _, JSValue.undef => "undefined"
  | _, JSValue.null => "null"
  | _, JSValue.boolean b => cond b "true" "false"
  | _, JSValue.number n => toString n
  | _, JSValue.string s => "\"" ++ s ++ "\""
  | _, JSValue.function _ => "[Function anonymous]"
  | _, JSValue.symbol _ => "Symbol()"
  | 0, JSValue.array _ => "[Array]"
  | Nat.succ d, JSValue.array elems =>
      "[" ++ String.intercalate ", " (elems.map (renderWithDepth d)) ++ "]"
  | _, JSValue.object c _ _ =>
      if c = some Ctor.regExpCtor then "/regexp/" else "\x7b\x7d"

/-- Options the module passes to the pretty-format collaborator. In the
source, `callToJSON` defaults to true when omitted. -/
structure PrettyFormatOptions where
  callToJSON : Bool
  maxDepth : Nat
  min : Bool
deriving DecidableEq, Repr

/-- Whether the value's own custom serialization hook (toJSON) throws when
invoked. -/
def hasThrowingHook : JSValue → Bool
  | JSValue.object _ t _ => t
  | _ => false

/-- Modelled from the spec: the external pretty-format collaborator (not
under src/). It throws exactly when custom serialization hooks are enabled
(`callToJSON`, default true) and the value's hook throws; otherwise it
returns the compact rendering bounded by `maxDepth`. -/
def prettyFormat (v : JSValue) (opts : PrettyFormatOptions) : Except String String :=
  if opts.callToJSON && hasThrowingHook v then
    Except.error "toJSON hook threw"
  else
    Except.ok (renderWithDepth opts.maxDepth v)

/-- Modelled from the spec: chalk.green, the "expected" semantic color
(chalk is an external collaborator); a pass-through wrapper, as the spec
requires outside color-capable destinations. -/
def EXPECTED_COLOR (s : String) : String := s

/-- Modelled from the spec: chalk.red, the "received" semantic color; a
pass-through wrapper. -/
def RECEIVED_COLOR (s : String) : String := s

/-- Modelled from the spec: chalk.dim, the muted style used for the
punctuation of the hint; a pass-through wrapper. -/
def chalkDim (s : String) : String := s

/-- index.js lines 50-76: `getType`, classifying a value into the closed
ValueType set, first match winning; the final branch throws an error
interpolating the value (the interpolation reuses the renderer since the
branch is unreachable for every modelled value). -/
def getType (value : JSValue) : Except String ValueType :=
  if typeof value = "undefined" then Except.ok ValueType.undefined
  else if isNull value then Except.ok ValueType.null
  else if isArray value then Except.ok ValueType.array
  else if typeof value = "boolean" then Except.ok ValueType.boolean
  else if typeof value = "function" then Except.ok ValueType.function
  else if typeof value = "number" then Except.ok ValueType.number
  else if typeof value = "string" then Except.ok ValueType.string
  else if typeof value = "object" then
    (if constructorOf value = some Ctor.regExpCtor then Except.ok ValueType.regexp
     else Except.ok ValueType.object)
  else if typeof value = "symbol" then Except.ok ValueType.symbol
  else Except.error ("value of unknown type: " ++ renderWithDepth 10 value)

/-- index.js lines 78-91: `stringify`, a primary pretty-format attempt with
maxDepth 10 and min true, retried with `callToJSON: false` when the primary
attempt throws; an error of the second attempt would propagate. -/
def stringify (object : JSValue) : Except String String :=
  match prettyFormat object (PrettyFormatOptions.mk true 10 true) with
  | Except.ok s => Except.ok s
  | Except.error _ => prettyFormat object (PrettyFormatOptions.mk false 10 true)

/-- index.js line 93: `printReceived`; a thrown error of `stringify` would
propagate. -/
def printReceived (object : JSValue) : Except String String :=
  match stringify object with
  | Except.ok s => Except.ok (RECEIVED_COLOR s)
  | Except.error e => Except.error e

/-- index.js line 94: `printExpected`. -/
def printExpected (value : JSValue) : Except String String :=
  match stringify value with
  | Except.ok s => Except.ok (EXPECTED_COLOR s)
  | Except.error e => Except.error e

/-- index.js lines 96-109: `printWithType`; errors of `getType` or of the
print function propagate. -/
def printWithType (name : String) (received : JSValue)
    (print : JSValue → Except String String) : Except String String :=
  match getType received with
  | Except.error e => Except.error e
  | Except.ok type =>
    match print received with
    | Except.error e => Except.error e
    | Except.ok printed =>
      Except.ok (name ++ ":" ++
        (if type ≠ ValueType.null ∧ type ≠ ValueType.undefined
         then "\n  " ++ ValueType.toStr type ++ ": "
         else " ") ++ printed)

/-- index.js lines 153-163: `matcherHint`. The two optional labels model
the JavaScript default parameters, `received` defaulting to "received" and
`expected` to "expected" (a default applies when the caller passes
undefined, modelled by `none`). -/
def matcherHint (matcherName : String) (received : Option String)
    (expected : Option String) : String :=
  chalkDim "expect(" ++ RECEIVED_COLOR (received.getD "received") ++
  chalkDim (")" ++ matcherName ++ "(") ++
  EXPECTED_COLOR (expected.getD "expected") ++ chalkDim ")"

/-- index.js lines 111-120: `ensureNoExpected`. The JavaScript
`matcherName || (matcherName = 'This')` substitutes the default label for
any falsy string, and the only falsy string is the empty one. An error of
`printWithType` (raised while the message is built) would propagate. -/
def ensureNoExpected (expected : JSValue) (matcherName : String) : Except String Unit :=
  let m := if matcherName = "" then "This" else matcherName
  if typeof expected ≠ "undefined" then
    match printWithType "Got" expected printExpected with
    | Except.ok p =>
      Except.error (matcherHint ("[.not]" ++ m) none (some "") ++ "\n\n" ++
        "Matcher does not accept any arguments.\n" ++ p)
    | Except.error e => Except.error e
  else
    Except.ok ()

/-- index.js lines 122-131: `ensureActualIsNumber`. -/
def ensureActualIsNumber (actual : JSValue) (matcherName : String) : Except String Unit :=
  let m := if matcherName = "" then "This matcher" else matcherName
  if typeof actual ≠ "number" then
    match printWithType "Received" actual printReceived with
    | Except.ok p =>
      Except.error (matcherHint ("[.not]" ++ m) none none ++ "\n\n" ++
        "Actual value must be a number.\n" ++ p)
    | Except.error e => Except.error e
  else
    Except.ok ()

/-- index.js lines 133-142: `ensureExpectedIsNumber`. -/
def ensureExpectedIsNumber (expected : JSValue) (matcherName : String) : Except String Unit :=
  let m := if matcherName = "" then "This matcher" else matcherName
  if typeof expected ≠ "number" then
    match printWithType "Got" expected printExpected with
    | Except.ok p =>
      Except.error (matcherHint ("[.not]" ++ m) none none ++ "\n\n" ++
        "Expected value must be a number.\n" ++ p)
    | Except.error e => Except.error e
  else
    Except.ok ()

/-- index.js lines 144-147: `ensureNumbers`, the actual-side guard first;
its thrown error short-circuits the expected-side guard. -/
def ensureNumbers (actual expected : JSValue) (matcherName : String) : Except String Unit :=
  match ensureActualIsNumber actual matcherName with
  | Except.error e => Except.error e
  | Except.ok _ => ensureExpectedIsNumber expected matcherName

/-- index.js lines 31-46: the spelled-number table. -/
def NUMBERS : List String :=
  ["zero", "one", "two", "three", "four", "five", "six", "seven", "eight",
   "nine", "ten", "eleven", "twelve", "thirteen"]

/-- index.js lines 149-151: `pluralize`. `NUMBERS[count] || count` falls
back to the numeral exactly when the lookup is out of range (every entry of
the table is a non-empty, hence truthy, string). -/
def pluralize (word : String) (count : Nat) : String :=
  (match NUMBERS.get? count with
   | some w => w
   | none => toString count) ++ " " ++ word ++ (if count = 1 then "" else "s")

/-- The spelled-out English numbers of the spec, written independently of
the NUMBERS table: defined for 0 through 13 and for nothing else. -/
def spelledEnglish : Nat → Option String
  | 0 => some "zero"
  | 1 => some "one"
  | 2 => some "two"
  | 3 => some "three"
  | 4 => some "four"
  | 5 => some "five"
  | 6 => some "six"
  | 7 => some "seven"
  | 8 => some "eight"
  | 9 => some "nine"
  | 10 => some "ten"
  | 11 => some "eleven"
  | 12 => some "twelve"
  | 13 => some "thirteen"
  | _ => none

lemma getType_isOk (v : JSValue) : ∃ t, getType v = Except.ok t := by
  cases v with
  | object c t g =>
    by_cases hc : c = some Ctor.regExpCtor
    · exact ⟨ValueType.regexp, by simp [getType, typeof, isNull, isArray, constructorOf, hc]⟩
    · exact ⟨ValueType.object, by simp [getType, typeof, isNull, isArray, constructorOf, hc]⟩
  | undef => exact ⟨_, rfl⟩
  | null => exact ⟨_, rfl⟩
  | boolean b => exact ⟨_, rfl⟩
  | number n => exact ⟨_, rfl⟩
  | string s => exact ⟨_, rfl⟩
  | function i => exact ⟨_, rfl⟩
  | symbol i => exact ⟨_, rfl⟩
  | array es => exact ⟨_, rfl⟩

lemma getType_congr (v w : JSValue) (h1 : typeof v = typeof w)
    (h2 : isArray v = isArray w) (h3 : isNull v = isNull w)
    (h4 : constructorOf v = some Ctor.regExpCtor ↔ constructorOf w = some Ctor.regExpCtor) :
    getType v = getType w := by
  cases v <;> cases w <;> simp_all [typeof, isArray, isNull, constructorOf, getType]

lemma typeof_eq_undefined_iff (v : JSValue) : typeof v = "undefined" ↔ v = JSValue.undef := by
  cases v <;>
    first
      | exact iff_of_true rfl rfl
      | exact iff_of_false (by simp [typeof]) (fun h => JSValue.noConfusion h)

lemma prettyFormat_mk_ok (v : JSValue) (cj : Bool) (d : Nat)
    (h : (cj && hasThrowingHook v) = false) :
    prettyFormat v (PrettyFormatOptions.mk cj d true) = Except.ok (renderWithDepth d v) := by
  simp [prettyFormat, h]

lemma prettyFormat_mk_error (v : JSValue) (d : Nat) (h : hasThrowingHook v = true) :
    prettyFormat v (PrettyFormatOptions.mk true d true) = Except.error "toJSON hook threw" := by
  simp [prettyFormat, h]

lemma stringify_isOk (v : JSValue) : ∃ s, stringify v = Except.ok s := by
  cases h : hasThrowingHook v with
  | false =>
    refine ⟨renderWithDepth 10 v, ?_⟩
    unfold stringify
    rw [prettyFormat_mk_ok v true 10 (by rw [h]; rfl)]
  | true =>
    refine ⟨renderWithDepth 10 v, ?_⟩
    unfold stringify
    rw [prettyFormat_mk_error v 10 h, prettyFormat_mk_ok v false 10 (by rw [h]; rfl)]

lemma printExpected_isOk (v : JSValue) : ∃ s, printExpected v = Except.ok s := by
  obtain ⟨s, hs⟩ := stringify_isOk v
  exact ⟨EXPECTED_COLOR s, by simp [printExpected, hs]⟩

lemma printReceived_isOk (v : JSValue) : ∃ s, printReceived v = Except.ok s := by
  obtain ⟨s, hs⟩ := stringify_isOk v
  exact ⟨RECEIVED_COLOR s, by simp [printReceived, hs]⟩

lemma printWithType_ok_of_print_ok (name : String) (v : JSValue)
    (p : JSValue → Except String String) (s : String) (hs : p v = Except.ok s) :
    ∃ r, printWithType name v p = Except.ok r := by
  obtain ⟨t, ht⟩ := getType_isOk v
  refine ⟨name ++ ":" ++
    (if t ≠ ValueType.null ∧ t ≠ ValueType.undefined
     then "\n  " ++ ValueType.toStr t ++ ": "
     else " ") ++ s, ?_⟩
  simp [printWithType, ht, hs]

lemma spelledEnglish_eq_none (c : Nat) (h : 14 ≤ c) : spelledEnglish c = none := by
  obtain ⟨d, rfl⟩ : ∃ d, c = d + 14 := ⟨c - 14, by omega⟩
  rfl

lemma NUMBERS_get_eq_spelled (c : Nat) : NUMBERS.get? c = spelledEnglish c := by
  rcases Nat.lt_or_ge c 14 with h | h
  · interval_cases c <;> rfl
  · have h1 : NUMBERS.get? c = none := by
      rw [List.get?_eq_none]
      simpa [NUMBERS] using h
    rw [h1, spelledEnglish_eq_none c h]

/-- Claim C1: for every value whose custom serialization hook throws during
the primary pretty-format attempt, `stringify value` does not throw but
returns the string produced by a second pretty-format attempt with the hook
disabled (callToJSON false) and the same maxDepth 10 and compact (min true)
settings. -/
theorem stringify_fallback_on_throwing_hook (v : JSValue)
    (h : hasThrowingHook v = true) :
    stringify v = prettyFormat v (PrettyFormatOptions.mk false 10 true) ∧
    ∃ s, stringify v = Except.ok s := by
  have h2 : prettyFormat v (PrettyFormatOptions.mk false 10 true) =
      Except.ok (renderWithDepth 10 v) :=
    prettyFormat_mk_ok v false 10 (by rw [h]; rfl)
  constructor
  · unfold stringify
    rw [prettyFormat_mk_error v 10 h]
  · refine ⟨renderWithDepth 10 v, ?_⟩
    unfold stringify
    rw [prettyFormat_mk_error v 10 h, h2]

theorem stringify_fallback_on_throwing_hook_witness :
    hasThrowingHook (JSValue.object none true false) = true ∧
    (stringify (JSValue.object none true false) =
        prettyFormat (JSValue.object none true false) (PrettyFormatOptions.mk false 10 true) ∧
      ∃ s, stringify (JSValue.object none true false) = Except.ok s) :=
  ⟨rfl, stringify_fallback_on_throwing_hook (JSValue.object none true false) rfl⟩

/-- Claim C2: `getType` returns exactly one tag from the closed ValueType
set for every value (the unknown-type error branch is never reached), and
the result depends only on the value's runtime kind: two values agreeing on
their typeof string, arrayness, nullness and constructor-is-RegExp status
get the same tag. In particular getType classifies [1,2] as array, null as
null, a RegExp instance as regexp, and undefined as undefined. -/
theorem getType_closed_and_kind_determined (v w : JSValue)
    (h1 : typeof v = typeof w) (h2 : isArray v = isArray w) (h3 : isNull v = isNull w)
    (h4 : constructorOf v = some Ctor.regExpCtor ↔ constructorOf w = some Ctor.regExpCtor) :
    (∃ t, getType v = Except.ok t) ∧
    getType v = getType w ∧
    getType (JSValue.array [JSValue.number 1, JSValue.number 2]) = Except.ok ValueType.array ∧
    getType JSValue.null = Except.ok ValueType.null ∧
    getType (JSValue.object (some Ctor.regExpCtor) false true) = Except.ok ValueType.regexp ∧
    getType JSValue.undef = Except.ok ValueType.undefined :=
  ⟨getType_isOk v, getType_congr v w h1 h2 h3 h4, rfl, rfl, rfl, rfl⟩

theorem getType_closed_and_kind_determined_witness :
    (typeof JSValue.null = typeof JSValue.null ∧
      isArray JSValue.null = isArray JSValue.null ∧
      isNull JSValue.null = isNull JSValue.null ∧
      (constructorOf JSValue.null = some Ctor.regExpCtor ↔
        constructorOf JSValue.null = some Ctor.regExpCtor)) ∧
    ((∃ t, getType JSValue.null = Except.ok t) ∧
      getType JSValue.null = getType JSValue.null ∧
      getType (JSValue.array [JSValue.number 1, JSValue.number 2]) = Except.ok ValueType.array ∧
      getType JSValue.null = Except.ok ValueType.null ∧
      getType (JSValue.object (some Ctor.regExpCtor) false true) = Except.ok ValueType.regexp ∧
      getType JSValue.undef = Except.ok ValueType.undefined) :=
  ⟨⟨rfl, rfl, rfl, Iff.rfl⟩,
    getType_closed_and_kind_determined JSValue.null JSValue.null rfl rfl rfl Iff.rfl⟩

/-- Claim C3: `getType` checks kinds in a fixed precedence order with first
match winning: undefined, then null (which is classified null although its
typeof is "object", so before any generic object test), then array (also of
typeof "object"), then boolean, function, number, string, then the generic
object branch, inside which a value is tagged regexp exactly when its
constructor is identically the RegExp type and object otherwise, then
symbol. -/
theorem getType_precedence_order :
    getType JSValue.undef = Except.ok ValueType.undefined ∧
    getType JSValue.null = Except.ok ValueType.null ∧
    typeof JSValue.null = "object" ∧
    (∀ es, getType (JSValue.array es) = Except.ok ValueType.array ∧
      typeof (JSValue.array es) = "object") ∧
    (∀ b, getType (JSValue.boolean b) = Except.ok ValueType.boolean) ∧
    (∀ i, getType (JSValue.function i) = Except.ok ValueType.function) ∧
    (∀ n, getType (JSValue.number n) = Except.ok ValueType.number) ∧
    (∀ s, getType (JSValue.string s) = Except.ok ValueType.string) ∧
    (∀ c th g, typeof (JSValue.object c th g) = "object" ∧
      getType (JSValue.object c th g) =
        (if c = some Ctor.regExpCtor then Except.ok ValueType.regexp
         else Except.ok ValueType.object)) ∧
    (∀ i, getType (JSValue.symbol i) = Except.ok ValueType.symbol) :=
  ⟨rfl, rfl, rfl, fun _ => ⟨rfl, rfl⟩, fun _ => rfl, fun _ => rfl, fun _ => rfl,
    fun _ => rfl, fun _ _ _ => ⟨rfl, rfl⟩, fun _ => rfl⟩

/-- Claim C4: `printWithType name value print` omits the type segment
exactly when the classified type of the value is null or undefined,
yielding name ++ ": " ++ printed; for every other value it includes the
type segment, yielding name ++ ":\n  " ++ type ++ ": " ++ printed.
Concretely printWithType "Got" null printExpected is "Got: null" and
printWithType "Received" 3 printReceived is "Received:\n  number: 3" (with
pass-through colors). -/
theorem printWithType_null_undefined_omit (name : String) (v : JSValue)
    (p : JSValue → Except String String) :
    (printWithType name v p =
      match getType v with
      | Except.error e => Except.error e
      | Except.ok t =>
        match p v with
        | Except.error e => Except.error e
        | Except.ok s =>
          if t = ValueType.null ∨ t = ValueType.undefined
          then Except.ok (name ++ ": " ++ s)
          else Except.ok (name ++ ":\n  " ++ ValueType.toStr t ++ ": " ++ s)) ∧
    printWithType "Got" JSValue.null printExpected = Except.ok "Got: null" ∧
    printWithType "Received" (JSValue.number 3) printReceived =
      Except.ok "Received:\n  number: 3" := by
  refine ⟨?_, rfl, rfl⟩
  obtain ⟨t, ht⟩ := getType_isOk v
  cases hp : p v with
  | error e => simp [printWithType, ht, hp]
  | ok s =>
    simp only [printWithType, ht, hp]
    cases t <;> simp [ValueType.toStr] <;> simp only [String.append_assoc] <;> rfl

/-- Claim C5: `ensureNoExpected expected matcherName` succeeds exactly when
expected is the undefined sentinel; otherwise it fails with an error whose
message is the matcher hint built with label "[.not]" ++ matcherName and an
empty expected slot, a blank line, the line "Matcher does not accept any
arguments.", and printWithType "Got" expected printExpected. -/
theorem ensureNoExpected_succeeds_iff_undefined (expected w : JSValue)
    (matcherName : String) (hn : matcherName ≠ "") (hd : expected ≠ JSValue.undef) :
    (ensureNoExpected w matcherName = Except.ok () ↔ w = JSValue.undef) ∧
    ∃ p, printWithType "Got" expected printExpected = Except.ok p ∧
      ensureNoExpected expected matcherName =
        Except.error (matcherHint ("[.not]" ++ matcherName) none (some "") ++ "\n\n" ++
          "Matcher does not accept any arguments.\n" ++ p) := by
  constructor
  · by_cases hw : w = JSValue.undef
    · subst hw
      simp [ensureNoExpected, typeof]
    · have ht : ¬ typeof w = "undefined" := fun h => hw ((typeof_eq_undefined_iff w).mp h)
      obtain ⟨s, hs⟩ := printExpected_isOk w
      obtain ⟨r, hr⟩ := printWithType_ok_of_print_ok "Got" w printExpected s hs
      simp [ensureNoExpected, ht, hr, hw]
  · have ht : ¬ typeof expected = "undefined" :=
      fun h => hd ((typeof_eq_undefined_iff expected).mp h)
    obtain ⟨s, hs⟩ := printExpected_isOk expected
    obtain ⟨r, hr⟩ := printWithType_ok_of_print_ok "Got" expected printExpected s hs
    refine ⟨r, hr, ?_⟩
    simp [ensureNoExpected, ht, hr, hn]

theorem ensureNoExpected_succeeds_iff_undefined_witness :
    (("toBeTruthy" : String) ≠ "" ∧ JSValue.number 5 ≠ JSValue.undef) ∧
    ((ensureNoExpected JSValue.undef "toBeTruthy" = Except.ok () ↔
        JSValue.undef = JSValue.undef) ∧
      ∃ p, printWithType "Got" (JSValue.number 5) printExpected = Except.ok p ∧
        ensureNoExpected (JSValue.number 5) "toBeTruthy" =
          Except.error (matcherHint ("[.not]" ++ "toBeTruthy") none (some "") ++ "\n\n" ++
            "Matcher does not accept any arguments.\n" ++ p)) :=
  ⟨⟨by decide, fun h => JSValue.noConfusion h⟩,
    ensureNoExpected_succeeds_iff_undefined (JSValue.number 5) JSValue.undef "toBeTruthy"
      (by decide) (fun h => JSValue.noConfusion h)⟩

/-- Claim C6: `ensureActualIsNumber` fails exactly when the actual value's
runtime kind is not numeric, with the message hint ++ blank line ++ "Actual
value must be a number." ++ printWithType "Received" actual printReceived;
`ensureExpectedIsNumber` is the symmetric check with "Expected value must
be a number." and printWithType "Got" expected printExpected; and
`ensureNumbers` runs the actual check first, so when both arguments are
non-numeric the surfaced failure is the actual-side one. -/
theorem ensureNumbers_actual_side_first (a e x : JSValue) (n : String)
    (hn : n ≠ "") (ha : typeof a ≠ "number") (he : typeof e ≠ "number") :
    (ensureActualIsNumber x n = Except.ok () ↔ typeof x = "number") ∧
    (ensureExpectedIsNumber x n = Except.ok () ↔ typeof x = "number") ∧
    (∃ p, printWithType "Received" a printReceived = Except.ok p ∧
      ensureActualIsNumber a n = Except.error
        (matcherHint ("[.not]" ++ n) none none ++ "\n\n" ++
          "Actual value must be a number.\n" ++ p)) ∧
    (∃ p, printWithType "Got" e printExpected = Except.ok p ∧
      ensureExpectedIsNumber e n = Except.error
        (matcherHint ("[.not]" ++ n) none none ++ "\n\n" ++
          "Expected value must be a number.\n" ++ p)) ∧
    ensureNumbers a e n = ensureActualIsNumber a n := by
  refine ⟨?_, ?_, ?_, ?_, ?_⟩
  · by_cases hx : typeof x = "number"
    · simp [ensureActualIsNumber, hx]
    · obtain ⟨s, hs⟩ := printReceived_isOk x
      obtain ⟨r, hr⟩ := printWithType_ok_of_print_ok "Received" x printReceived s hs
      simp [ensureActualIsNumber, hx, hr]
  · by_cases hx : typeof x = "number"
    · simp [ensureExpectedIsNumber, hx]
    · obtain ⟨s, hs⟩ := printExpected_isOk x
      obtain ⟨r, hr⟩ := printWithType_ok_of_print_ok "Got" x printExpected s hs
      simp [ensureExpectedIsNumber, hx, hr]
  · obtain ⟨s, hs⟩ := printReceived_isOk a
    obtain ⟨r, hr⟩ := printWithType_ok_of_print_ok "Received" a printReceived s hs
    refine ⟨r, hr, ?_⟩
    simp [ensureActualIsNumber, ha, hr, hn]
  · obtain ⟨s, hs⟩ := printExpected_isOk e
    obtain ⟨r, hr⟩ := printWithType_ok_of_print_ok "Got" e printExpected s hs
    refine ⟨r, hr, ?_⟩
    simp [ensureExpectedIsNumber, he, hr, hn]
  · obtain ⟨s, hs⟩ := printReceived_isOk a
    obtain ⟨r, hr⟩ := printWithType_ok_of_print_ok "Received" a printReceived s hs
    simp [ensureNumbers, ensureActualIsNumber, ha, hr]

theorem ensureNumbers_actual_side_first_witness :
    (("toBe" : String) ≠ "" ∧ typeof (JSValue.string "x") ≠ "number" ∧
      typeof (JSValue.string "x") ≠ "number") ∧
    ((ensureActualIsNumber (JSValue.number 5) "toBe" = Except.ok () ↔
        typeof (JSValue.number 5) = "number") ∧
      (ensureExpectedIsNumber (JSValue.number 5) "toBe" = Except.ok () ↔
        typeof (JSValue.number 5) = "number") ∧
      (∃ p, printWithType "Received" (JSValue.string "x") printReceived = Except.ok p ∧
        ensureActualIsNumber (JSValue.string "x") "toBe" = Except.error
          (matcherHint ("[.not]" ++ "toBe") none none ++ "\n\n" ++
            "Actual value must be a number.\n" ++ p)) ∧
      (∃ p, printWithType "Got" (JSValue.string "x") printExpected = Except.ok p ∧
        ensureExpectedIsNumber (JSValue.string "x") "toBe" = Except.error
          (matcherHint ("[.not]" ++ "toBe") none none ++ "\n\n" ++
            "Expected value must be a number.\n" ++ p)) ∧
      ensureNumbers (JSValue.string "x") (JSValue.string "x") "toBe" =
        ensureActualIsNumber (JSValue.string "x") "toBe") :=
  ⟨⟨by decide, by decide, by decide⟩,
    ensureNumbers_actual_side_first (JSValue.string "x") (JSValue.string "x")
      (JSValue.number 5) "toBe" (by decide) (by decide) (by decide)⟩

/-- Claim C7: for every word and natural count, `pluralize word count`
spells the count as a word for counts 0 through 13 (the spelled English
table, defined for exactly those counts) and uses the numeral itself for
every count at least 14, and appends "s" to the word unless the count is
exactly 1; in particular pluralize "apple" 1 = "one apple",
pluralize "apple" 2 = "two apples", pluralize "apple" 20 = "20 apples". -/
theorem pluralize_spelled_table (word : String) (count : Nat) :
    pluralize word count =
      (match spelledEnglish count with
       | some w => w
       | none => toString count) ++ " " ++ word ++ (if count = 1 then "" else "s") ∧
    (spelledEnglish count = none ↔ 14 ≤ count) ∧
    pluralize "apple" 1 = "one apple" ∧
    pluralize "apple" 2 = "two apples" ∧
    pluralize "apple" 20 = "20 apples" := by
  refine ⟨?_, ?_, rfl, rfl, rfl⟩
  · simp only [pluralize, NUMBERS_get_eq_spelled]
  · constructor
    · intro h0
      by_contra hlt
      push_neg at hlt
      interval_cases count <;> simp [spelledEnglish] at h0
    · exact spelledEnglish_eq_none count

/-- Claim C8: for every matcherName, `matcherHint matcherName` with the
default labels and pass-through colors equals
"expect(" ++ "received" ++ ")" ++ matcherName ++ "(" ++ "expected" ++ ")",
with matcherName inserted verbatim; in particular matcherHint ".toBe" is
"expect(received).toBe(expected)". -/
theorem matcherHint_verbatim (matcherName : String) :
    matcherHint matcherName none none =
      "expect(" ++ "received" ++ ")" ++ matcherName ++ "(" ++ "expected" ++ ")" ∧
    matcherHint ".toBe" none none = "expect(received).toBe(expected)" := by
  constructor
  · simp only [matcherHint, chalkDim, RECEIVED_COLOR, EXPECTED_COLOR,
      Option.getD_none, String.append_assoc]
  · rfl

/-- Claim C9 (implicit): the guards substitute their default matcher label
whenever the supplied matcherName is falsy (the empty string), not only
when it is absent: ensureNoExpected with matcherName "" behaves exactly as
with "This" (hint built from "[.not]This"), and ensureActualIsNumber and
ensureExpectedIsNumber with "" behave exactly as with "This matcher" (hint
built from "[.not]This matcher"). -/
theorem falsy_matcherName_uses_default (v : JSValue) :
    ensureNoExpected v "" = ensureNoExpected v "This" ∧
    ensureActualIsNumber v "" = ensureActualIsNumber v "This matcher" ∧
    ensureExpectedIsNumber v "" = ensureExpectedIsNumber v "This matcher" ∧
    ensureNoExpected (JSValue.number 5) "" =
      Except.error ("expect(received)[.not]This()\n\n" ++
        "Matcher does not accept any arguments.\n" ++ "Got:\n  number: 5") ∧
    ensureActualIsNumber (JSValue.string "x") "" =
      Except.error ("expect(received)[.not]This matcher(expected)\n\n" ++
        "Actual value must be a number.\n" ++ "Received:\n  string: \"x\"") := by
  refine ⟨?_, ?_, ?_, rfl, rfl⟩
  · simp [ensureNoExpected]
  · simp [ensureActualIsNumber]
  · simp [ensureExpectedIsNumber]

/-- Claim C10 (implicit): on the generic-object branch, the regexp tag is
decided solely by constructor identity: every non-null, non-array value of
object kind whose constructor property is exactly the RegExp constructor is
tagged regexp even when it is not a genuine regular expression, and every
object whose constructor property is anything else, including objects with
no constructor, is tagged object without error. -/
theorem getType_regexp_by_constructor_identity (c : Option Ctor) (hook genuine : Bool) :
    getType (JSValue.object c hook genuine) =
      (if c = some Ctor.regExpCtor then Except.ok ValueType.regexp
       else Except.ok ValueType.object) ∧
    getType (JSValue.object (some Ctor.regExpCtor) hook false) = Except.ok ValueType.regexp ∧
    getType (JSValue.object none hook genuine) = Except.ok ValueType.object ∧
    getType (JSValue.object (some (Ctor.otherCtor 7)) hook genuine) =
      Except.ok ValueType.object :=
  ⟨rfl, rfl, rfl, rfl⟩
